import Mathlib

/-!
Verification of the IMGtoKMZ pipeline (src/create.py and src/create-win.py).

The two Python scripts ingest a directory of photos, extract GPS/timestamp
metadata via an external tool, classify each record, sort geotagged records
by timestamp, assign sequence names p1..pN, build a KML document (optionally
with a gx:Tour fly-through in the create.py variant), stage the files and
write a KMZ archive plus a CSV report.

This file shallowly embeds the relevant parts of both scripts.  External
collaborators (exiftool, the filesystem, image converters, zip writes) are
modelled as oracle fields of environment records; everything else is a
direct functional translation of the Python source.  Machine floats carried
through the pipeline (latitude, longitude, altitude) are represented as
integers: no claim depends on their fractional values, only on their
presence, ordering of emission, and rendering shape.
-/

namespace IMG

/-! ## Datetimes

Python `datetime` values compare lexicographically on
(year, month, day, hour, minute, second); we embed them as a lexicographic
product of naturals (microseconds never arise in the parsed formats). -/

def DateTime : Type := Nat ×ₗ Nat ×ₗ Nat ×ₗ Nat ×ₗ Nat ×ₗ Nat

instance : LinearOrder DateTime :=
  inferInstanceAs (LinearOrder (Nat ×ₗ Nat ×ₗ Nat ×ₗ Nat ×ₗ Nat ×ₗ Nat))

instance : DecidableEq DateTime :=
  inferInstanceAs (DecidableEq (Nat ×ₗ Nat ×ₗ Nat ×ₗ Nat ×ₗ Nat ×ₗ Nat))

def DateTime.mk6 (y mo d h mi s : Nat) : DateTime :=
  toLex (y, toLex (mo, toLex (d, toLex (h, toLex (mi, s)))))

/-- Embedding of `datetime.utcfromtimestamp(0)`, i.e. 1970-01-01T00:00:00. -/
def epochDT : DateTime := DateTime.mk6 1970 1 1 0 0 0

/-! ## Timestamp string parsing (`parse_dt` and its helpers)

`datetime.strptime` against the three format strings
"%Y:%m:%d %H:%M:%S", "%Y-%m-%dT%H:%M:%S", "%Y:%m:%d" is embedded as a
character-list parser: `%Y` matches exactly four digits, the two-digit
directives match one or two digits greedily, literals match themselves, the
whole string must be consumed, and the resulting fields must form a valid
`datetime` (CPython rejects out-of-range fields either in the directive
regex or in the datetime constructor; both rejections make `strptime`
raise, which the script treats identically, so they are merged into one
validity check here). -/

def takeDigits : Nat → List Char → List Char × List Char
  | 0, cs => ([], cs)
  | _ + 1, [] => ([], [])
  | n + 1, c :: cs =>
    if c.isDigit then
      let r := takeDigits n cs
      (c :: r.1, r.2)
    else ([], c :: cs)

def digitsVal (ds : List Char) : Nat :=
  ds.foldl (fun a c => a * 10 + (c.toNat - 48)) 0

/-- Parse exactly `w` digits (the CPython regex for `%Y` is four `\d`). -/
def parseFixed (w : Nat) (cs : List Char) : Option (Nat × List Char) :=
  let r := takeDigits w cs
  if r.1.length = w then some (digitsVal r.1, r.2) else none

/-- Parse one or two digits greedily (CPython two-digit directives). -/
def parseFlex2 (cs : List Char) : Option (Nat × List Char) :=
  let r := takeDigits 2 cs
  if r.1.isEmpty then none else some (digitsVal r.1, r.2)

def lit (c : Char) : List Char → Option (List Char)
  | [] => none
  | x :: xs => if x = c then some xs else none

def isLeap (y : Nat) : Bool :=
  (y % 4 == 0 && y % 100 != 0) || y % 400 == 0

def daysInMonth (y m : Nat) : Nat :=
  if m = 2 then (if isLeap y then 29 else 28)
  else if m = 4 ∨ m = 6 ∨ m = 9 ∨ m = 11 then 30 else 31

/-- Field validation of the `datetime` constructor (plus the directive
regex ranges, which it subsumes): `MINYEAR ≤ y ≤ MAXYEAR`, valid month,
day valid for the month, and in-range time fields. -/
def mkDT? (y mo d h mi s : Nat) : Option DateTime :=
  if 1 ≤ y ∧ y ≤ 9999 ∧ 1 ≤ mo ∧ mo ≤ 12 ∧ 1 ≤ d ∧ d ≤ daysInMonth y mo ∧
      h ≤ 23 ∧ mi ≤ 59 ∧ s ≤ 59 then
    some (DateTime.mk6 y mo d h mi s)
  else none

/-- Embedding of `datetime.strptime` for a full date-time format with date
separator `dsep` and date/time separator `tsep`; instantiated below for
"%Y:%m:%d %H:%M:%S" and "%Y-%m-%dT%H:%M:%S". -/
def strptimeDateTime (dsep tsep : Char) (s : String) : Option DateTime := do
  let (y, r1) ← parseFixed 4 s.data
  let r2 ← lit dsep r1
  let (mo, r3) ← parseFlex2 r2
  let r4 ← lit dsep r3
  let (d, r5) ← parseFlex2 r4
  let r6 ← lit tsep r5
  let (h, r7) ← parseFlex2 r6
  let r8 ← lit ':' r7
  let (mi, r9) ← parseFlex2 r8
  let r10 ← lit ':' r9
  let (sec, r11) ← parseFlex2 r10
  if r11.isEmpty then mkDT? y mo d h mi sec else none

/-- Embedding of `datetime.strptime(s, "%Y:%m:%d %H:%M:%S")`. -/
def strptimeColonFull (s : String) : Option DateTime :=
  strptimeDateTime ':' ' ' s

/-- Embedding of `datetime.strptime(s, "%Y-%m-%dT%H:%M:%S")`. -/
def strptimeIsoT (s : String) : Option DateTime :=
  strptimeDateTime '-' 'T' s

/-- Embedding of `datetime.strptime(s, "%Y:%m:%d")` (midnight time). -/
def strptimeDateOnly (s : String) : Option DateTime := do
  let (y, r1) ← parseFixed 4 s.data
  let r2 ← lit ':' r1
  let (mo, r3) ← parseFlex2 r2
  let r4 ← lit ':' r3
  let (d, r5) ← parseFlex2 r4
  if r5.isEmpty then mkDT? y mo d 0 0 0 else none

/-- Embedding of `datetime.fromisoformat`, restricted to the forms without
fractional seconds or timezone offsets: "YYYY-MM-DD" optionally followed by
a one-character separator and "HH", "HH:MM" or "HH:MM:SS" (all fixed
two-digit fields, as CPython requires). -/
def fromisoformat (s : String) : Option DateTime := do
  let (y, r1) ← parseFixed 4 s.data
  let r2 ← lit '-' r1
  let (mo, r3) ← parseFixed 2 r2
  let r4 ← lit '-' r3
  let (d, r5) ← parseFixed 2 r4
  match r5 with
  | [] => mkDT? y mo d 0 0 0
  | _ :: r6 => do
    let (h, r7) ← parseFixed 2 r6
    match r7 with
    | [] => mkDT? y mo d h 0 0
    | _ => do
      let r8 ← lit ':' r7
      let (mi, r9) ← parseFixed 2 r8
      match r9 with
      | [] => mkDT? y mo d h mi 0
      | _ => do
        let r10 ← lit ':' r9
        let (sec, r11) ← parseFixed 2 r10
        if r11.isEmpty then mkDT? y mo d h mi sec else none

/-- Filesystem oracle shared by both script variants: `pathExists` embeds
`os.path.exists`, and `mtime` embeds
`datetime.utcfromtimestamp(os.path.getmtime(p))`, with `none` standing for
the `OSError` raised on an inaccessible file. -/
structure FsEnv where
  pathExists : String → Bool
  mtime : String → Option DateTime

/-- Embedding of `parse_dt(dt_str, p)` (identical in both scripts): a falsy
timestamp string (absent or empty) falls back to the file's modified time;
otherwise the three `strptime` formats and then `fromisoformat` are tried
in order, and if all fail the result is `None` — there is no modified-time
fallback on a non-empty unparsable string. -/
def parse_dt (env : FsEnv) (dtStr : Option String) (p : String) : Option DateTime :=
  match dtStr with
  | none => env.mtime p
  | some s =>
    if s = "" then env.mtime p
    else
      match strptimeColonFull s with
      | some d => some d
      | none =>
        match strptimeIsoT s with
        | some d => some d
        | none =>
          match strptimeDateOnly s with
          | some d => some d
          | none => fromisoformat s

/-! ## Path helpers (`os.path` operations used by the scripts) -/

def isSep (c : Char) : Bool := c = '/' || c = '\\'

/-- Embedding of `os.path.basename`: the part of the path after the last
separator. -/
def basename (s : String) : String :=
  String.mk ((s.data.reverse.takeWhile (fun c => !isSep c)).reverse)

/-- Embedding of `os.path.isabs` (posix form; nothing in the claims depends
on the host's separator conventions). -/
def isabs (s : String) : Bool :=
  match s.data with
  | [] => false
  | c :: _ => c = '/'

/-- Embedding of `os.path.join(d, s)`: an absolute second component
replaces the first. -/
def joinPath (d s : String) : String :=
  if isabs s then s
  else if d = "" then s
  else if d.data.getLast? = some '/' then d ++ s
  else d ++ "/" ++ s

def lastDotSuffix : List Char → Option (List Char)
  | [] => none
  | c :: cs =>
    match lastDotSuffix cs with
    | some r => some r
    | none => if c = '.' then some (c :: cs) else none

/-- Embedding of `str.lower()` (ASCII case folding; extensions and paths
in the claims are ASCII). -/
def lowerStr (s : String) : String :=
  String.mk (s.data.map Char.toLower)

/-- Embedding of `os.path.splitext(s.lower())[1]`: the extension starts at
the last dot of the lowercased basename, ignoring any leading dots. -/
def extOfLower (s : String) : String :=
  let b := (basename (lowerStr s)).data
  let rest := b.drop ((b.takeWhile (fun c => c = '.')).length)
  match lastDotSuffix rest with
  | some e => String.mk e
  | none => ""

/-! ## Raw metadata records and classification -/

/-- A JSON value in a GPS field of an exiftool record, as seen by
`float(...)`: either a value `float` converts (embedded as its integer
value) or one on which `float` raises. -/
inductive JVal where
  | num (v : Int)
  | bad
deriving DecidableEq

def JVal.toFloat? : JVal → Option Int
  | .num v => some v
  | .bad => none

/-- One raw metadata record as returned by `run_exiftool_json` (only the
fields the scripts request). -/
structure RawItem where
  sourceFile : Option String
  fileName : Option String
  gpsLatitude : Option JVal
  gpsLongitude : Option JVal
  gpsAltitude : Option JVal
  dateTimeOriginal : Option String
deriving DecidableEq

/-- Python truthiness of an optional string: `None` and `""` are falsy. -/
def truthy : Option String → Bool
  | none => false
  | some s => s ≠ ""

/-- Embedding of `item.get("SourceFile") or item.get("FileName")`. -/
def rawSrc (it : RawItem) : Option String :=
  if truthy it.sourceFile then it.sourceFile else it.fileName

/-- A raw record survives the `if not src: continue` guard. -/
def usable (it : RawItem) : Bool := truthy (rawSrc it)

/-- Embedding of the candidate-path resolution shared by both scripts:
the source path as given (joined with the image directory when relative),
falling back to directory-plus-basename when that path does not exist. -/
def resolveCandidate (env : FsEnv) (imageDir src : String) : String :=
  let cand0 := if isabs src then src else joinPath imageDir src
  if env.pathExists cand0 then cand0 else joinPath imageDir (basename src)

/-- A geotagged record as built by either script's main loop (`items`
entries).  `srcpath` holds create.py's original source path (for create-win
it coincides with the normalized path), `candidate` the resolved path used
for copying; `kname` and `kimg` start unset and are filled in by the
naming pass and the copy loop. -/
structure Geo where
  srcpath : String
  candidate : String
  lon : Int
  lat : Int
  alt : Option Int
  dt : Option DateTime
  kname : String
  kimg : Option String
deriving DecidableEq

/-! ## Ordering and naming engine (identical in both scripts) -/

/-- Embedding of the sort key
`lambda x: (x['dt'] is None, x['dt'] or datetime.utcfromtimestamp(0))`
(a `datetime` is always truthy, so `or` only replaces `None`). -/
def sortKey (p : Geo) : Bool ×ₗ DateTime :=
  toLex (p.dt.isNone, p.dt.getD epochDT)

/-- The sort relation induced by the key. -/
def geoR (a b : Geo) : Prop := sortKey a ≤ sortKey b

instance : DecidableRel geoR :=
  fun a b => inferInstanceAs (Decidable (sortKey a ≤ sortKey b))

instance : IsTotal Geo geoR := ⟨fun a b => le_total (sortKey a) (sortKey b)⟩

instance : IsTrans Geo geoR := ⟨fun _ _ _ hab hbc => le_trans hab hbc⟩

/-- Embedding of `items.sort(key=...)`: Python's sort is stable, and a
stable sort is uniquely determined by its key, so it is embedded as a
stable sorting algorithm (insertion sort) over the same key. -/
def sortGeo (l : List Geo) : List Geo := List.insertionSort geoR l

/-- Embedding of the naming pass
`for idx, it in enumerate(items, start=1): it['kname'] = f"p{idx}"`. -/
def assignNames (l : List Geo) : List Geo :=
  l.enum.map (fun ip => { ip.2 with kname := "p" ++ toString (ip.1 + 1) })

/-! ## KML generation (`make_kml`)

The generated markup is embedded structurally: one `Placemark` node per
record carrying exactly the data interpolated into the f-string (name,
image reference, coordinate string), and for create.py an optional tour of
`FlyTo` waypoints carrying the interpolated numbers.  The surrounding
constant XML scaffolding is not modelled. -/

/-- Embedding of the coordinate f-string: `f"{lon},{lat}"`, extended with
`f",{alt}"` exactly when the altitude is present (zero altitude included). -/
def coordString (p : Geo) : String :=
  let base := toString p.lon ++ "," ++ toString p.lat
  match p.alt with
  | some a => base ++ "," ++ toString a
  | none => base

/-- Embedding of create.py's
`p.get('kimg', "files/" + os.path.basename(p['srcpath']))`. -/
def imgSrcOf (p : Geo) : String :=
  p.kimg.getD ("files/" ++ basename p.srcpath)

structure Placemark where
  name : String
  imgSrc : String
  coords : String
deriving DecidableEq

structure Waypoint where
  lon : Int
  lat : Int
  alt : Int
  duration : Nat
  heading : Nat
  tilt : Nat
  range : Nat
deriving DecidableEq

structure KmlDoc where
  docName : String
  placemarks : List Placemark
  tour : Option (List Waypoint)
deriving DecidableEq

/-- Embedding of the tour sort key `lambda x: x.get('dt') or epoch` (note:
unlike the main sort, a missing timestamp sorts at the epoch, not last). -/
def tourKey (p : Geo) : DateTime := p.dt.getD epochDT

/-- The tour's sort relation (`sorted(placemarks, key=...)`, a stable
sort, embedded like the main one). -/
def tourR (a b : Geo) : Prop := tourKey a ≤ tourKey b

instance : DecidableRel tourR :=
  fun a b => inferInstanceAs (Decidable (tourKey a ≤ tourKey b))

instance : IsTotal Geo tourR := ⟨fun a b => le_total (tourKey a) (tourKey b)⟩

instance : IsTrans Geo tourR := ⟨fun _ _ _ hab hbc => le_trans hab hbc⟩

/-- Embedding of `p.get('alt') or 0` (Python `or`, so a stored `0` is
falsy and is replaced by the literal `0` — same value). -/
def altOrZero : Option Int → Int
  | none => 0
  | some v => if v = 0 then 0 else v

def mkWaypoint (p : Geo) : Waypoint :=
  { lon := p.lon, lat := p.lat, alt := altOrZero p.alt,
    duration := 3, heading := 0, tilt := 45, range := 200 }

/-- Embedding of create.py's `make_kml(placemarks, doc_name, include_tour)`. -/
def make_kml (ps : List Geo) (docName : String) (includeTour : Bool) : KmlDoc :=
  { docName := docName,
    placemarks := ps.map (fun p => ⟨p.kname, imgSrcOf p, coordString p⟩),
    tour :=
      if includeTour then
        some ((List.insertionSort tourR ps).map mkWaypoint)
      else none }

/-- Embedding of create-win.py's `make_kml(placemarks, doc_name)`: no tour,
and the image reference indexes `p['kimg']` directly (the main loop has
always set it before calling). -/
def make_kml_win (ps : List Geo) (docName : String) : KmlDoc :=
  { docName := docName,
    placemarks := ps.map (fun p => ⟨p.kname, p.kimg.getD "", coordString p⟩),
    tour := none }

/-! ## Shared pipeline pieces -/

/-- Embedding of `str.strip()` (whitespace stripping on both ends). -/
def pyStrip (s : String) : String :=
  String.mk
    (((s.data.dropWhile Char.isWhitespace).reverse.dropWhile
      Char.isWhitespace).reverse)

/-- Embedding of `proc.stderr.strip() or "exiftool failed"`. -/
def errMsg (stderrText : String) : String :=
  let t := pyStrip stderrText
  if t = "" then "exiftool failed" else t

/-- Embedding of `os.path.splitext(os.path.basename(s))[0]` (the archive's
document name). -/
def splitextRoot (s : String) : String :=
  let b := (basename s).data
  let rest := b.drop ((b.takeWhile (fun c => c = '.')).length)
  match lastDotSuffix rest with
  | some e => String.mk (b.take (b.length - e.length))
  | none => String.mk b

/-- Sequential zip writing: entries are written in order until one write
fails (`zipfile` raising), which aborts the `with` block; returns the
successfully written entries and whether all writes succeeded. -/
def writeZip (ok : String → Bool) : List String → List String × Bool
  | [] => ([], true)
  | e :: es =>
    if ok e then
      let r := writeZip ok es
      (e :: r.1, r.2)
    else ([], false)

inductive RunExit where
  | ok
  | exited (code : Nat)
  | raised (msg : String)
deriving DecidableEq

instance {ε α : Type} [DecidableEq ε] [DecidableEq α] :
    DecidableEq (Except ε α) := fun x y =>
  match x, y with
  | .ok a, .ok b => decidable_of_iff (a = b) (by simp)
  | .error a, .error b => decidable_of_iff (a = b) (by simp)
  | .ok _, .error _ => isFalse (by simp)
  | .error _, .ok _ => isFalse (by simp)

/-! ## create.py classification and main pipeline -/

inductive PyStep where
  | geo (g : Geo)
  | skip (s : String)
  | drop

/-- Embedding of
`candidate if candidate and os.path.exists(candidate) else src`. -/
def skipName (env : FsEnv) (candidate src : String) : String :=
  if (candidate != "") && env.pathExists candidate then candidate else src

/-- Embedding of one iteration of create.py's classification loop
(lines 72-96): resolve the source path, bucket into `items` (geotagged) or
`skipped`, or drop the record when it carries no source path.  A present
but unconvertible `GPSAltitude` makes `float(alt)` raise outside any
`try`, aborting the run, hence the `Except`. -/
def classifyPy (env : FsEnv) (imageDir : String) (item : RawItem) :
    Except String PyStep :=
  match rawSrc item with
  | none => .ok .drop
  | some src =>
    if src = "" then .ok .drop
    else
      let candidate := resolveCandidate env imageDir src
      match item.gpsLatitude, item.gpsLongitude with
      | some la, some lo =>
        match la.toFloat?, lo.toFloat? with
        | some lat, some lon =>
          match item.gpsAltitude with
          | some a =>
            match a.toFloat? with
            | some av =>
              .ok (.geo ⟨src, candidate, lon, lat, some av,
                parse_dt env item.dateTimeOriginal candidate, "", none⟩)
            | none => .error "could not convert GPSAltitude to float"
          | none =>
            .ok (.geo ⟨src, candidate, lon, lat, none,
              parse_dt env item.dateTimeOriginal candidate, "", none⟩)
        | _, _ => .ok (.skip (skipName env candidate src))
      | _, _ => .ok (.skip (skipName env candidate src))

/-- create.py's whole classification loop, preserving input order within
each bucket. -/
def classifyAllPy (env : FsEnv) (imageDir : String) :
    List RawItem → Except String (List Geo × List String)
  | [] => .ok ([], [])
  | it :: its =>
    match classifyPy env imageDir it with
    | .error e => .error e
    | .ok st =>
      match classifyAllPy env imageDir its with
      | .error e => .error e
      | .ok r =>
        match st with
        | .geo g => .ok (g :: r.1, r.2)
        | .skip s => .ok (r.1, s :: r.2)
        | .drop => .ok r

/-- Environment of one create.py run: the exiftool invocation's outcome
(`.error` is a non-zero exit with the tool's stderr), the filesystem, and
per-entry success of writes into the zip archive. -/
structure PyEnv where
  exiftool : Except String (List RawItem)
  fs : FsEnv
  zipOk : String → Bool

/-- One row of create.py's CSV report
`(kname, source_path, lat, lon, datetime, status)`. -/
structure PyRow where
  kname : String
  sourcePath : String
  lat : Option Int
  lon : Option Int
  dt : Option DateTime
  status : String
deriving DecidableEq

def okRowPy (p : Geo) : PyRow :=
  { kname := p.kname, sourcePath := p.candidate, lat := some p.lat,
    lon := some p.lon, dt := p.dt, status := "OK" }

def noGpsRowPy (s : String) : PyRow :=
  { kname := "", sourcePath := s, lat := none, lon := none, dt := none,
    status := "NO_GPS" }

/-- Embedding of create.py's copy loop body for one record: when the
candidate file exists it is staged and `kimg` is set; otherwise only a
warning is printed and the record is left untouched. -/
def copyUpdatePy (env : FsEnv) (p : Geo) : Geo :=
  if env.pathExists p.candidate then
    { p with kimg := some ("files/" ++ basename p.candidate) }
  else p

/-- Observable outcome of one create.py run.  `archiveRemoved` records
whether any code path deletes the output file (none does);
`scratchRemains` whether the `tempfile.mkdtemp` scratch tree survives the
run (the `finally: shutil.rmtree(tmp)` always removes it, and on
extraction failure it was never created). -/
structure PyResult where
  exit : RunExit
  items : List Geo
  skipped : List String
  kml : Option KmlDoc
  archiveCreated : Bool
  archiveEntries : List String
  archiveFinalized : Bool
  archiveRemoved : Bool
  csvWritten : Bool
  geojsonWritten : Bool
  reportRows : List PyRow
  noGpsDirCreated : Bool
  noGpsCopied : List String
  scratchRemains : Bool
deriving DecidableEq

/-- A run that aborted before producing anything. -/
def noRunPy (e : RunExit) : PyResult :=
  { exit := e, items := [], skipped := [], kml := none,
    archiveCreated := false, archiveEntries := [], archiveFinalized := false,
    archiveRemoved := false, csvWritten := false, geojsonWritten := false,
    reportRows := [], noGpsDirCreated := false, noGpsCopied := [],
    scratchRemains := false }

/-- Embedding of create.py's `main` after CLI parsing (lines 69-173):
extraction, classification, the empty-input early exit, sorting and
naming, the staging copy loop (which mutates the same dicts the reversed
`kml_items` list aliases, so the functional model reverses after the
update), KML generation, the `no_gps` side folder, the archive write and
the CSV/GeoJSON reports. -/
def mainPy (env : PyEnv) (imageDir outKmz : String) (includeTour : Bool) :
    PyResult :=
  match env.exiftool with
  | .error e => noRunPy (.raised (errMsg e))
  | .ok data =>
    match classifyAllPy env.fs imageDir data with
    | .error e => noRunPy (.raised e)
    | .ok r =>
      let items0 := r.1
      let skipped := r.2
      if items0.isEmpty && skipped.isEmpty then noRunPy (.exited 1)
      else
        let named := assignNames (sortGeo items0)
        let itemsC := named.map (copyUpdatePy env.fs)
        let staged := (itemsC.filter (fun p => env.fs.pathExists p.candidate)).map
          (fun p => "files/" ++ basename p.candidate)
        let kml := make_kml itemsC.reverse (splitextRoot outKmz) includeTour
        let noGps := skipped.filter (fun s => env.fs.pathExists s)
        let entries := "doc.kml" :: staged.dedup
        let w := writeZip env.zipOk entries
        if w.2 then
          { exit := .ok, items := itemsC, skipped := skipped, kml := some kml,
            archiveCreated := true, archiveEntries := w.1,
            archiveFinalized := true, archiveRemoved := false,
            csvWritten := true, geojsonWritten := true,
            reportRows := itemsC.map okRowPy ++ skipped.map noGpsRowPy,
            noGpsDirCreated := !skipped.isEmpty, noGpsCopied := noGps,
            scratchRemains := false }
        else
          { exit := .raised "archive write failed", items := itemsC,
            skipped := skipped, kml := some kml,
            archiveCreated := true, archiveEntries := w.1,
            archiveFinalized := false, archiveRemoved := false,
            csvWritten := false, geojsonWritten := false, reportRows := [],
            noGpsDirCreated := !skipped.isEmpty, noGpsCopied := noGps,
            scratchRemains := false }

/-! ## create-win.py classification and main pipeline -/

/-- Embedding of `allowed_exts`. -/
def allowedExts : List String := [".jpg", ".jpeg", ".png", ".heic", ".heif"]

/-- Embedding of `normalize_image(src, workdir)`: HEIC/HEIF sources go
through the external converter chain (magick, then ffmpeg, then exiftool
tag re-attachment), abstracted as the `conv` oracle returning the
converted path or `none` when both converters fail; all other extensions
are returned unchanged. -/
def normalize_image (conv : String → Option String) (src : String) :
    Option String :=
  if extOfLower src = ".heic" || extOfLower src = ".heif" then conv src
  else some src

/-- Environment of one create-win.py run: exiftool outcome, filesystem,
the HEIC converter, per-source success of `shutil.copy2`, and per-entry
success of zip writes. -/
structure WinEnv where
  exiftool : Except String (List RawItem)
  fs : FsEnv
  convert : String → Option String
  copyOk : String → Bool
  zipOk : String → Bool

inductive WinStep where
  | geo (g : Geo)
  | nongeo (src : String) (dt : Option DateTime)
  | nonimg (p : String)
  | drop

/-- Embedding of one iteration of create-win.py's classification loop
(lines 95-123): resolve the path, reject disallowed extensions as
non-image, normalize (conversion failure also demotes to non-image),
then bucket by GPS parseability.  As in create.py, a present but
unconvertible `GPSAltitude` raises outside any `try`. -/
def classifyWin (env : WinEnv) (imageDir : String) (item : RawItem) :
    Except String WinStep :=
  match rawSrc item with
  | none => .ok .drop
  | some src =>
    if src = "" then .ok .drop
    else
      let candidate := resolveCandidate env.fs imageDir src
      if extOfLower candidate ∈ allowedExts then
        match normalize_image env.convert candidate with
        | none => .ok (.nonimg candidate)
        | some norm =>
          let dt := parse_dt env.fs item.dateTimeOriginal norm
          match item.gpsLatitude, item.gpsLongitude with
          | some la, some lo =>
            match la.toFloat?, lo.toFloat? with
            | some lat, some lon =>
              match item.gpsAltitude with
              | some a =>
                match a.toFloat? with
                | some av => .ok (.geo ⟨norm, norm, lon, lat, some av, dt, "", none⟩)
                | none => .error "could not convert GPSAltitude to float"
              | none => .ok (.geo ⟨norm, norm, lon, lat, none, dt, "", none⟩)
            | _, _ => .ok (.nongeo norm dt)
          | _, _ => .ok (.nongeo norm dt)
      else .ok (.nonimg candidate)

/-- The three classification buckets of create-win.py. -/
structure WinBuckets where
  items : List Geo
  nongeo : List (String × Option DateTime)
  nonimg : List String
deriving DecidableEq

/-- create-win.py's whole classification loop, preserving input order
within each bucket. -/
def classifyAllWin (env : WinEnv) (imageDir : String) :
    List RawItem → Except String WinBuckets
  | [] => .ok ⟨[], [], []⟩
  | it :: its =>
    match classifyWin env imageDir it with
    | .error e => .error e
    | .ok st =>
      match classifyAllWin env imageDir its with
      | .error e => .error e
      | .ok b =>
        match st with
        | .geo g => .ok ⟨g :: b.items, b.nongeo, b.nonimg⟩
        | .nongeo s d => .ok ⟨b.items, (s, d) :: b.nongeo, b.nonimg⟩
        | .nonimg p => .ok ⟨b.items, b.nongeo, p :: b.nonimg⟩
        | .drop => .ok b

/-- Embedding of create-win.py's geotagged copy loop (lines 138-142):
each record's normalized file is copied into the staging `files/` tree and
the `files_geo` side folder and its `kimg` is set; a failing `copy2`
raises and aborts the loop.  Returns the processed records, the staged
basenames, and whether the loop completed. -/
def copyGeoWin (ok : String → Bool) : List Geo → List Geo × List String × Bool
  | [] => ([], [], true)
  | p :: ps =>
    if ok p.srcpath then
      let r := copyGeoWin ok ps
      ({ p with kimg := some ("files/" ++ basename p.srcpath) } :: r.1,
        basename p.srcpath :: r.2.1, r.2.2)
    else ([], [], false)

/-- One row of create-win.py's CSV report
`(slno, filename, datetime, lat, long, status)`. -/
structure WinRow where
  sl : Nat
  filename : String
  dt : Option DateTime
  lat : Option Int
  lon : Option Int
  status : String
deriving DecidableEq

/-- Embedding of create-win.py's report assembly (lines 166-178): OK rows
for the sorted geotagged records, then NO_GPS rows, then NON_IMAGE rows,
with a running 1-based serial number. -/
def winRows (items : List Geo) (nongeo : List (String × Option DateTime))
    (nonimg : List String) : List WinRow :=
  let base :=
    items.map (fun p =>
      (⟨0, basename p.srcpath, p.dt, some p.lat, some p.lon, "OK"⟩ : WinRow))
    ++ nongeo.map (fun ng =>
      (⟨0, basename ng.1, ng.2, none, none, "NO_GPS"⟩ : WinRow))
    ++ nonimg.map (fun nf =>
      (⟨0, basename nf, none, none, none, "NON_IMAGE"⟩ : WinRow))
  base.enum.map (fun ir => { ir.2 with sl := ir.1 + 1 })

/-- Observable outcome of one create-win.py run.  Both scratch trees
(`heicfix_` and `kmz_`) are created before the `try` and removed in the
`finally`, so `scratchRemains` is false on every path. -/
structure WinResult where
  exit : RunExit
  buckets : WinBuckets
  items : List Geo
  kml : Option KmlDoc
  archiveCreated : Bool
  archiveEntries : List String
  archiveFinalized : Bool
  archiveRemoved : Bool
  csvWritten : Bool
  reportRows : List WinRow
  sideDirsCreated : Bool
  sideGeo : List String
  sideNonGeo : List String
  sideNonImg : List String
  scratchRemains : Bool
deriving DecidableEq

def noRunWin (e : RunExit) : WinResult :=
  { exit := e, buckets := ⟨[], [], []⟩, items := [], kml := none,
    archiveCreated := false, archiveEntries := [], archiveFinalized := false,
    archiveRemoved := false, csvWritten := false, reportRows := [],
    sideDirsCreated := false, sideGeo := [], sideNonGeo := [],
    sideNonImg := [], scratchRemains := false }

/-- Embedding of create-win.py's `main` after CLI parsing (lines 88-197):
extraction, classification, sorting and naming, side-folder creation, the
geotagged copy loop, the NO_GPS and NON_IMAGE side copies, KML generation
over the reversed (aliased, hence post-update) list, the archive write and
the CSV report. -/
def mainWin (env : WinEnv) (imageDir outKmz : String) : WinResult :=
  match env.exiftool with
  | .error e => noRunWin (.raised (errMsg e))
  | .ok data =>
    match classifyAllWin env imageDir data with
    | .error e => noRunWin (.raised e)
    | .ok b =>
      let named := assignNames (sortGeo b.items)
      let r := copyGeoWin env.copyOk named
      if r.2.2 then
        let itemsC := r.1
        let staged := r.2.1
        let sideNonGeo := (b.nongeo.filter (fun ng => env.copyOk ng.1)).map
          (fun ng => basename ng.1)
        let sideNonImg := (b.nonimg.filter
          (fun nf => env.fs.pathExists nf && env.copyOk nf)).map basename
        let kml := make_kml_win itemsC.reverse (splitextRoot outKmz)
        let entries := "doc.kml" :: (staged.map (fun bn => "files/" ++ bn)).dedup
        let w := writeZip env.zipOk entries
        if w.2 then
          { exit := .ok, buckets := b, items := itemsC, kml := some kml,
            archiveCreated := true, archiveEntries := w.1,
            archiveFinalized := true, archiveRemoved := false,
            csvWritten := true,
            reportRows := winRows itemsC b.nongeo b.nonimg,
            sideDirsCreated := true, sideGeo := staged,
            sideNonGeo := sideNonGeo, sideNonImg := sideNonImg,
            scratchRemains := false }
        else
          { exit := .raised "archive write failed", buckets := b,
            items := itemsC, kml := some kml,
            archiveCreated := true, archiveEntries := w.1,
            archiveFinalized := false, archiveRemoved := false,
            csvWritten := false, reportRows := [],
            sideDirsCreated := true, sideGeo := staged,
            sideNonGeo := sideNonGeo, sideNonImg := sideNonImg,
            scratchRemains := false }
      else
        let base := noRunWin (.raised "copy failed")
        { base with
          buckets := b
          items := r.1
          sideDirsCreated := true
          sideGeo := r.2.1 }

/-! ## Comma-separated components

`splitComma` formalises "the comma-separated values of a string" for the
coordinate-string claims; it is the claim's vocabulary, not part of the
program embedding. -/

def splitCommaL : List Char → List (List Char)
  | [] => [[]]
  | c :: cs =>
    match splitCommaL cs with
    | [] => [[c]]
    | h :: t => if c = ',' then [] :: h :: t else (c :: h) :: t

def splitComma (s : String) : List String :=
  (splitCommaL s.data).map (fun l => String.mk l)

lemma splitCommaL_ne_nil (cs : List Char) : splitCommaL cs ≠ [] := by
  induction cs with
  | nil => simp [splitCommaL]
  | cons c cs ih =>
    simp only [splitCommaL]
    match h : splitCommaL cs with
    | [] => exact absurd h ih
    | a :: t =>
      by_cases hc : c = ',' <;> simp [hc]

lemma splitCommaL_of_no_comma (cs : List Char) (h : ',' ∉ cs) :
    splitCommaL cs = [cs] := by
  induction cs with
  | nil => rfl
  | cons c cs ih =>
    have hc : c ≠ ',' := fun e => h (e ▸ List.mem_cons_self c cs)
    have hcs : ',' ∉ cs := fun m => h (List.mem_cons_of_mem c m)
    simp only [splitCommaL, ih hcs]
    simp [hc]

lemma splitCommaL_append (xs ys : List Char) (h : ',' ∉ xs) :
    splitCommaL (xs ++ ',' :: ys) = xs :: splitCommaL ys := by
  induction xs with
  | nil =>
    simp only [List.nil_append, splitCommaL]
    match hy : splitCommaL ys with
    | [] => exact absurd hy (splitCommaL_ne_nil ys)
    | a :: t => simp
  | cons c cs ih =>
    have hc : c ≠ ',' := fun e => h (e ▸ List.mem_cons_self c cs)
    have hcs : ',' ∉ cs := fun m => h (List.mem_cons_of_mem c m)
    rw [List.cons_append]
    simp only [splitCommaL]
    rw [ih hcs]
    simp [hc]

/-! Rendered integers contain no comma, so each interpolated number is one
component of the coordinate string. -/

lemma digitChar_ne_comma (n : Nat) : Nat.digitChar n ≠ ',' := by
  rcases Nat.lt_or_ge n 16 with h | h
  · interval_cases n <;> decide
  · have e : Nat.digitChar n = '*' := by
      unfold Nat.digitChar
      repeat rw [if_neg (by omega)]
    rw [e]; decide

lemma toDigitsCore_no_comma (f : Nat) :
    ∀ (n : Nat) (ds : List Char), ',' ∉ ds →
      ',' ∉ Nat.toDigitsCore 10 f n ds := by
  induction f with
  | zero => intro n ds h; simpa [Nat.toDigitsCore] using h
  | succ f ih =>
    intro n ds h
    simp only [Nat.toDigitsCore]
    have hd : ',' ∉ Nat.digitChar (n % 10) :: ds := by
      intro m
      rcases List.mem_cons.mp m with e | m
      · exact digitChar_ne_comma (n % 10) e.symm
      · exact h m
    by_cases hz : n / 10 = 0
    · simpa [hz] using hd
    · simpa [hz] using ih (n / 10) _ hd

lemma natRepr_no_comma (n : Nat) : ',' ∉ (Nat.repr n).data := by
  show ',' ∉ (Nat.toDigits 10 n).asString.data
  have : (Nat.toDigits 10 n).asString.data = Nat.toDigits 10 n := rfl
  rw [this]
  exact toDigitsCore_no_comma (n + 1) n [] (by simp)

lemma intToString_no_comma (i : Int) : ',' ∉ (toString i).data := by
  cases i with
  | ofNat m => exact natRepr_no_comma m
  | negSucc m =>
    show ',' ∉ ("-" ++ Nat.repr (m + 1)).data
    rw [String.data_append]
    intro h
    rcases List.mem_append.mp h with h | h
    · simp [String.data] at h
    · exact natRepr_no_comma (m + 1) h

lemma splitComma_two (a b : String) (ha : ',' ∉ a.data) (hb : ',' ∉ b.data) :
    splitComma (a ++ "," ++ b) = [a, b] := by
  unfold splitComma
  have : (a ++ "," ++ b).data = a.data ++ ',' :: b.data := by
    simp [String.data_append]
  rw [this, splitCommaL_append _ _ ha, splitCommaL_of_no_comma _ hb]
  simp

lemma splitComma_three (a b c : String) (ha : ',' ∉ a.data)
    (hb : ',' ∉ b.data) (hc : ',' ∉ c.data) :
    splitComma (a ++ "," ++ b ++ "," ++ c) = [a, b, c] := by
  unfold splitComma
  have : (a ++ "," ++ b ++ "," ++ c).data =
      a.data ++ ',' :: (b.data ++ ',' :: c.data) := by
    simp [String.data_append]
  rw [this, splitCommaL_append _ _ ha, splitCommaL_append _ _ hb,
    splitCommaL_of_no_comma _ hc]
  simp

/-- C2.  For every geotagged record, the coordinate string emitted into its
placemark splits on commas into exactly the rendered longitude and latitude
when the altitude is unknown, and exactly longitude, latitude, altitude
when it is known (a stored altitude of 0 is `some 0`, hence three
components); longitude always precedes latitude. -/
theorem coordString_components (p : Geo) :
    splitComma (coordString p) =
      [toString p.lon, toString p.lat] ++
        (p.alt.map (fun a => toString a)).toList := by
  cases h : p.alt with
  | none =>
    simp only [coordString, h, Option.map_none, Option.toList_none,
      List.append_nil]
    exact splitComma_two _ _ (intToString_no_comma p.lon)
      (intToString_no_comma p.lat)
  | some a =>
    simp only [coordString, h, Option.map_some, Option.toList_some]
    exact splitComma_three _ _ _ (intToString_no_comma p.lon)
      (intToString_no_comma p.lat) (intToString_no_comma a)

/-! ## Ordering engine: stability and naming -/

/-- A stable sort leaves the subsequence of elements sharing any property
that forces mutual relatedness (in particular: sharing one sort key)
untouched. -/
lemma insertionSort_filter_eq {α : Type} (r : α → α → Prop) [DecidableRel r]
    (c : α → Bool) (hc : ∀ a b, c a → c b → r a b) (l : List α) :
    (List.insertionSort r l).filter c = l.filter c := by
  have hsub : List.Sublist (l.filter c) l := List.filter_sublist l
  have hpw : (l.filter c).Pairwise r := by
    apply List.pairwise_of_forall_mem_list
    intro a ha b hb
    exact hc a b (List.of_mem_filter ha) (List.of_mem_filter hb)
  have h1 : List.Sublist (l.filter c) (List.insertionSort r l) :=
    List.sublist_insertionSort hpw hsub
  have h2 : (l.filter c).filter c = l.filter c := by
    apply List.filter_eq_self.mpr
    intro a ha
    exact List.of_mem_filter ha
  have h3 : List.Sublist (l.filter c) ((List.insertionSort r l).filter c) := by
    have := h1.filter c
    rwa [h2] at this
  have h4 : ((List.insertionSort r l).filter c).length = (l.filter c).length :=
    ((List.perm_insertionSort r l).filter c).length_eq
  exact (h3.eq_of_length h4.symm).symm

/-- Erase the assigned name of a record (used to state that naming changes
nothing but the name). -/
def eraseName (p : Geo) : Geo := { p with kname := "" }

lemma assignNames_map_eraseName (s : List Geo) :
    (assignNames s).map eraseName = s.map eraseName := by
  unfold assignNames
  rw [List.map_map]
  have : (eraseName ∘ fun ip : Nat × Geo =>
      { ip.2 with kname := "p" ++ toString (ip.1 + 1) }) =
      (fun ip : Nat × Geo => eraseName ip.2) := by
    funext ip
    rfl
  rw [this]
  have : (fun ip : Nat × Geo => eraseName ip.2) =
      (eraseName ∘ Prod.snd) := rfl
  rw [this, ← List.map_map, List.enum_map_snd]

lemma assignNames_map_kname (s : List Geo) :
    (assignNames s).map (fun p => p.kname) =
      (List.range s.length).map (fun i => "p" ++ toString (i + 1)) := by
  unfold assignNames
  rw [List.map_map, List.enum_eq_zip_range]
  have : ((fun p : Geo => p.kname) ∘ fun ip : Nat × Geo =>
      { ip.2 with kname := "p" ++ toString (ip.1 + 1) }) =
      ((fun i => "p" ++ toString (i + 1)) ∘ Prod.fst) := rfl
  rw [this, ← List.map_map, List.map_fst_zip]
  simp

lemma sortKey_le_dt_none {a b : Geo} (h : sortKey a ≤ sortKey b)
    (ha : a.dt = none) : b.dt = none := by
  by_contra hb
  obtain ⟨v, hv⟩ := Option.ne_none_iff_exists'.mp hb
  unfold sortKey at h
  rw [ha, hv] at h
  simp only [Option.isNone_none, Option.isNone_some, Option.getD_none,
    Option.getD_some] at h
  rcases (Prod.Lex.le_iff (true, epochDT) (false, v)).mp h with h1 | ⟨h1, _⟩
  · simp only [] at h1
    exact absurd h1 (by decide)
  · simp at h1

/-- C1.  The ordering engine (identical in both scripts, lines 100-103 of
create.py and 124-127 of create-win.py): sorting is a permutation, it is
ascending in the key `(timestampIsMissing, timestamp or epoch)`, records
without a timestamp come after all timestamped ones, records sharing a key
(equal timestamps, or all timestamp-less) keep their relative input order,
names p1..pN are assigned over the ascending order (changing nothing else),
and the document's placemark listing — built from the reversed list, with
or without the copy pass setting thumbnails — carries the already-assigned
names in exactly reversed order. -/
theorem ordering_engine_spec (l : List Geo) :
    (sortGeo l).Perm l ∧
    (sortGeo l).Pairwise (fun a b => sortKey a ≤ sortKey b) ∧
    (sortGeo l).Pairwise (fun a b => a.dt = none → b.dt = none) ∧
    (∀ k : Bool ×ₗ DateTime,
      (sortGeo l).filter (fun p => decide (sortKey p = k)) =
        l.filter (fun p => decide (sortKey p = k))) ∧
    ((assignNames (sortGeo l)).map (fun p => p.kname) =
      (List.range l.length).map (fun i => "p" ++ toString (i + 1))) ∧
    ((assignNames (sortGeo l)).map eraseName = (sortGeo l).map eraseName) ∧
    (∀ (fs : FsEnv) (docName : String) (tour : Bool),
      (make_kml ((assignNames (sortGeo l)).map (copyUpdatePy fs)).reverse
          docName tour).placemarks.map (fun pm => pm.name) =
        ((List.range l.length).map (fun i => "p" ++ toString (i + 1))).reverse) := by
  have hperm : (sortGeo l).Perm l := List.perm_insertionSort geoR l
  have hsorted : (sortGeo l).Pairwise (fun a b => sortKey a ≤ sortKey b) :=
    List.sorted_insertionSort geoR l
  have hnames : (assignNames (sortGeo l)).map (fun p => p.kname) =
      (List.range l.length).map (fun i => "p" ++ toString (i + 1)) := by
    rw [assignNames_map_kname]
    have : (sortGeo l).length = l.length := hperm.length_eq
    rw [this]
  refine ⟨hperm, hsorted, ?_, ?_, hnames, assignNames_map_eraseName _, ?_⟩
  · exact hsorted.imp (fun h ha => sortKey_le_dt_none h ha)
  · intro k
    apply insertionSort_filter_eq geoR
    intro a b ha hb
    simp only [decide_eq_true_eq] at ha hb
    show sortKey a ≤ sortKey b
    rw [ha, hb]
  · intro fs docName tour
    simp only [make_kml, List.map_map, List.map_reverse]
    rw [← hnames]
    congr 1
    apply List.map_congr_left
    intro p _
    simp only [Function.comp_apply]
    unfold copyUpdatePy
    by_cases h : fs.pathExists p.candidate = true <;> simp [h]

/-! ## C9: the fly-through tour -/

/-- C9.  With the fly-through option enabled, create.py's `make_kml` emits
a tour: the camera waypoints are exactly the placemark records sorted
ascending by timestamp (a missing timestamp standing at the epoch for this
sort), i.e. chronological oldest first; every waypoint carries the fixed
transition duration 3 and the fixed viewing angle (heading 0, tilt 45,
range 200); and a record with unknown altitude gets altitude 0 in its
waypoint while its placemark coordinate string still omits the altitude
(two comma-separated components only). -/
theorem tour_spec (ps : List Geo) (docName : String) :
    (make_kml ps docName true).tour =
      some ((List.insertionSort tourR ps).map mkWaypoint) ∧
    (List.insertionSort tourR ps).Pairwise (fun a b => tourKey a ≤ tourKey b) ∧
    (List.insertionSort tourR ps).Perm ps ∧
    (∀ w ∈ (make_kml ps docName true).tour.getD [],
      w.duration = 3 ∧ w.heading = 0 ∧ w.tilt = 45 ∧ w.range = 200) ∧
    (∀ p : Geo, p.alt = none → (mkWaypoint p).alt = 0 ∧
      splitComma (coordString p) = [toString p.lon, toString p.lat]) := by
  refine ⟨rfl, List.sorted_insertionSort tourR ps,
    List.perm_insertionSort tourR ps, ?_, ?_⟩
  · intro w hw
    simp only [make_kml, if_pos, Option.getD_some, List.mem_map] at hw
    obtain ⟨p, _, hp⟩ := hw
    subst hp
    exact ⟨rfl, rfl, rfl, rfl⟩
  · intro p hp
    refine ⟨by simp [mkWaypoint, hp, altOrZero], ?_⟩
    simp only [coordString, hp]
    exact splitComma_two _ _ (intToString_no_comma p.lon)
      (intToString_no_comma p.lat)

def tourWitnessRec : Geo := ⟨"a.jpg", "photos/a.jpg", 2, 1, none, none, "p1", none⟩

theorem tour_spec_witness :
    (mkWaypoint tourWitnessRec).alt = 0 ∧
    splitComma (coordString tourWitnessRec) =
      [toString tourWitnessRec.lon, toString tourWitnessRec.lat] :=
  (tour_spec [tourWitnessRec] "t").2.2.2.2 tourWitnessRec rfl

/-! ## C4: timestamp resolution order -/

/-- The environment used for the timestamp counterexample: every file
exists and has the epoch as its modified time. -/
def c4Env : FsEnv := ⟨fun _ => true, fun _ => some epochDT⟩

/-- C4 counterexample.  The claim says a record whose supplied timestamp
string fails every accepted format still resolves to the file's
modification time; in the code the modification-time fallback is only
taken for an absent or empty string, so "garbage" resolves to `None` even
though the file's modification time is available. -/
theorem parse_dt_unparsable_gives_none_cex :
    c4Env.mtime "f.jpg" = some epochDT ∧
    parse_dt c4Env (some "garbage") "f.jpg" = none := by
  constructor
  · rfl
  · rfl

/-- C4 amended.  Timestamp resolution as the code implements it: a
non-empty supplied string is resolved purely by the four parsers in order
("YYYY:MM:DD HH:MM:SS", ISO with 'T', date-only "YYYY:MM:DD", generic ISO)
with `None` — not the file's modification time — when all fail, and the
modification-time fallback (with `None` for an inaccessible file) applies
exactly when the supplied string is absent or empty. -/
theorem parse_dt_resolution (env : FsEnv) (p : String) :
    (∀ s, s ≠ "" →
      parse_dt env (some s) p =
        (strptimeColonFull s <|> strptimeIsoT s <|>
          strptimeDateOnly s <|> fromisoformat s)) ∧
    parse_dt env none p = env.mtime p ∧
    parse_dt env (some "") p = env.mtime p := by
  refine ⟨?_, rfl, rfl⟩
  intro s hs
  simp only [parse_dt, if_neg hs]
  cases strptimeColonFull s <;> cases strptimeIsoT s <;>
    cases strptimeDateOnly s <;> rfl

theorem parse_dt_resolution_witness :
    parse_dt c4Env (some "not a date") "f.jpg" =
      (strptimeColonFull "not a date" <|> strptimeIsoT "not a date" <|>
        strptimeDateOnly "not a date" <|> fromisoformat "not a date") :=
  (parse_dt_resolution c4Env "f.jpg").1 "not a date" (by decide)

/-! ## Pipeline run lemmas (shared by several claims) -/

/-- The post-copy record list of a create.py run (the `items` dicts after
the staging loop has set thumbnails). -/
def itemsCOf (env : PyEnv) (items0 : List Geo) : List Geo :=
  (assignNames (sortGeo items0)).map (copyUpdatePy env.fs)

/-- The staged `files/` entries of a create.py run. -/
def stagedOf (env : PyEnv) (items0 : List Geo) : List String :=
  ((itemsCOf env items0).filter (fun p => env.fs.pathExists p.candidate)).map
    (fun p => "files/" ++ basename p.candidate)

lemma writeZip_all (ok : String → Bool) (hz : ∀ e, ok e = true) :
    ∀ l, writeZip ok l = (l, true) := by
  intro l
  induction l with
  | nil => rfl
  | cons e es ih => simp [writeZip, hz e, ih]

lemma writeZip_failhead (ok : String → Bool) (e : String) (es : List String)
    (hz : ok e = false) : writeZip ok (e :: es) = ([], false) := by
  simp [writeZip, hz]

lemma mainPy_success (env : PyEnv) (dir out : String) (tour : Bool)
    (data : List RawItem) (items0 : List Geo) (skipped : List String)
    (he : env.exiftool = .ok data)
    (hc : classifyAllPy env.fs dir data = .ok (items0, skipped))
    (hne : (items0.isEmpty && skipped.isEmpty) = false)
    (hz : ∀ e, env.zipOk e = true) :
    mainPy env dir out tour =
      { exit := .ok,
        items := itemsCOf env items0,
        skipped := skipped,
        kml := some (make_kml (itemsCOf env items0).reverse
          (splitextRoot out) tour),
        archiveCreated := true,
        archiveEntries := "doc.kml" :: (stagedOf env items0).dedup,
        archiveFinalized := true,
        archiveRemoved := false,
        csvWritten := true,
        geojsonWritten := true,
        reportRows := (itemsCOf env items0).map okRowPy ++
          skipped.map noGpsRowPy,
        noGpsDirCreated := !skipped.isEmpty,
        noGpsCopied := skipped.filter (fun s => env.fs.pathExists s),
        scratchRemains := false } := by
  simp only [mainPy, he, hc, hne, writeZip_all env.zipOk hz, itemsCOf,
    stagedOf, Bool.false_eq_true, if_false, if_true]

lemma mainPy_zipfail (env : PyEnv) (dir out : String) (tour : Bool)
    (data : List RawItem) (items0 : List Geo) (skipped : List String)
    (he : env.exiftool = .ok data)
    (hc : classifyAllPy env.fs dir data = .ok (items0, skipped))
    (hne : (items0.isEmpty && skipped.isEmpty) = false)
    (hz : env.zipOk "doc.kml" = false) :
    mainPy env dir out tour =
      { exit := .raised "archive write failed",
        items := itemsCOf env items0,
        skipped := skipped,
        kml := some (make_kml (itemsCOf env items0).reverse
          (splitextRoot out) tour),
        archiveCreated := true,
        archiveEntries := [],
        archiveFinalized := false,
        archiveRemoved := false,
        csvWritten := false,
        geojsonWritten := false,
        reportRows := [],
        noGpsDirCreated := !skipped.isEmpty,
        noGpsCopied := skipped.filter (fun s => env.fs.pathExists s),
        scratchRemains := false } := by
  simp only [mainPy, he, hc, hne, writeZip_failhead env.zipOk _ _ hz,
    itemsCOf, stagedOf, Bool.false_eq_true, if_false, if_true]

lemma copyGeoWin_all (ok : String → Bool) (hok : ∀ s, ok s = true) :
    ∀ l : List Geo,
      copyGeoWin ok l =
        (l.map (fun p =>
            { p with kimg := some ("files/" ++ basename p.srcpath) }),
          l.map (fun p => basename p.srcpath), true) := by
  intro l
  induction l with
  | nil => rfl
  | cons p ps ih => simp [copyGeoWin, hok p.srcpath, ih]

/-- The post-copy record list of a create-win.py run. -/
def winItemsCOf (items0 : List Geo) : List Geo :=
  (assignNames (sortGeo items0)).map
    (fun p => { p with kimg := some ("files/" ++ basename p.srcpath) })

lemma mainWin_zipfail (env : WinEnv) (dir out : String)
    (data : List RawItem) (b : WinBuckets)
    (he : env.exiftool = .ok data)
    (hc : classifyAllWin env dir data = .ok b)
    (hcopy : ∀ s, env.copyOk s = true)
    (hz : env.zipOk "doc.kml" = false) :
    mainWin env dir out =
      { exit := .raised "archive write failed",
        buckets := b,
        items := winItemsCOf b.items,
        kml := some (make_kml_win (winItemsCOf b.items).reverse
          (splitextRoot out)),
        archiveCreated := true,
        archiveEntries := [],
        archiveFinalized := false,
        archiveRemoved := false,
        csvWritten := false,
        reportRows := [],
        sideDirsCreated := true,
        sideGeo := (assignNames (sortGeo b.items)).map
          (fun p => basename p.srcpath),
        sideNonGeo := (b.nongeo.filter (fun ng => env.copyOk ng.1)).map
          (fun ng => basename ng.1),
        sideNonImg := (b.nonimg.filter
          (fun nf => env.fs.pathExists nf && env.copyOk nf)).map basename,
        scratchRemains := false } := by
  simp only [mainWin, he, hc, copyGeoWin_all env.copyOk hcopy,
    writeZip_failhead env.zipOk _ _ hz, winItemsCOf, if_true,
    Bool.false_eq_true, if_false]

/-! ## C6: extraction failure aborts the run -/

/-- C6.  In both variants, when the metadata tool exits non-zero the run
aborts raising the tool's error, nothing is written (no archive, no CSV or
GeoJSON report, no report rows, no side folders), and no scratch directory
survives (create.py has not created one yet; create-win.py removes both in
its `finally`). -/
theorem extraction_error_aborts (envP : PyEnv) (envW : WinEnv)
    (dir out : String) (tour : Bool) (stderrText : String)
    (hp : envP.exiftool = .error stderrText)
    (hw : envW.exiftool = .error stderrText) :
    mainPy envP dir out tour = noRunPy (.raised (errMsg stderrText)) ∧
    (mainPy envP dir out tour).archiveCreated = false ∧
    (mainPy envP dir out tour).csvWritten = false ∧
    (mainPy envP dir out tour).geojsonWritten = false ∧
    (mainPy envP dir out tour).reportRows = [] ∧
    (mainPy envP dir out tour).noGpsDirCreated = false ∧
    (mainPy envP dir out tour).scratchRemains = false ∧
    mainWin envW dir out = noRunWin (.raised (errMsg stderrText)) ∧
    (mainWin envW dir out).archiveCreated = false ∧
    (mainWin envW dir out).csvWritten = false ∧
    (mainWin envW dir out).reportRows = [] ∧
    (mainWin envW dir out).sideDirsCreated = false ∧
    (mainWin envW dir out).scratchRemains = false := by
  have h1 : mainPy envP dir out tour = noRunPy (.raised (errMsg stderrText)) := by
    simp only [mainPy, hp]
  have h2 : mainWin envW dir out = noRunWin (.raised (errMsg stderrText)) := by
    simp only [mainWin, hw]
  rw [h1, h2]
  exact ⟨rfl, rfl, rfl, rfl, rfl, rfl, rfl, rfl, rfl, rfl, rfl, rfl, rfl⟩

def c6PyEnv : PyEnv := ⟨.error "boom", ⟨fun _ => true, fun _ => some epochDT⟩,
  fun _ => true⟩

def c6WinEnv : WinEnv := ⟨.error "boom",
  ⟨fun _ => true, fun _ => some epochDT⟩, fun _ => none, fun _ => true,
  fun _ => true⟩

theorem extraction_error_aborts_witness :
    mainPy c6PyEnv "photos" "o.kmz" false = noRunPy (.raised "boom") ∧
    mainWin c6WinEnv "photos" "o.kmz" = noRunWin (.raised "boom") := by
  have h := extraction_error_aborts c6PyEnv c6WinEnv "photos" "o.kmz" false
    "boom" rfl rfl
  have e : errMsg "boom" = "boom" := by decide
  exact ⟨by rw [h.1, e], by rw [h.2.2.2.2.2.2.2.1, e]⟩

/-! ## C10: the create.py degenerate-input early exit -/

/-- C10.  In create.py, when classification yields no geotagged and no
skipped records (for instance on an empty directory), the run prints a
diagnostic and exits with status 1 having written nothing: no archive, no
reports, no KML, no `no_gps` side folder.  (This degenerate-input early
exit exists only in the create.py variant.) -/
theorem empty_input_early_exit (env : PyEnv) (dir out : String) (tour : Bool)
    (data : List RawItem) (he : env.exiftool = .ok data)
    (hc : classifyAllPy env.fs dir data = .ok ([], [])) :
    mainPy env dir out tour = noRunPy (.exited 1) ∧
    (mainPy env dir out tour).exit = .exited 1 ∧
    (mainPy env dir out tour).archiveCreated = false ∧
    (mainPy env dir out tour).csvWritten = false ∧
    (mainPy env dir out tour).geojsonWritten = false ∧
    (mainPy env dir out tour).noGpsDirCreated = false ∧
    (mainPy env dir out tour).kml = none := by
  have h : mainPy env dir out tour = noRunPy (.exited 1) := by
    simp only [mainPy, he, hc, List.isEmpty_nil, Bool.and_self, if_true]
  rw [h]
  exact ⟨rfl, rfl, rfl, rfl, rfl, rfl, rfl⟩

def c10Env : PyEnv := ⟨.ok [], ⟨fun _ => true, fun _ => some epochDT⟩,
  fun _ => true⟩

theorem empty_input_early_exit_witness :
    mainPy c10Env "photos" "o.kmz" false = noRunPy (.exited 1) :=
  (empty_input_early_exit c10Env "photos" "o.kmz" false [] rfl rfl).1

/-! ## C5: the extension filter -/

/-- A record whose source path has a non-image extension but carries GPS
coordinates. -/
def c5Item : RawItem :=
  ⟨some "notes.txt", none, some (.num 1), some (.num 2), none, none⟩

def c5PyEnv : PyEnv := ⟨.ok [c5Item], ⟨fun _ => true, fun _ => some epochDT⟩,
  fun _ => true⟩

/-- C5 counterexample.  "notes.txt" is outside the allowed extension set,
yet the create.py variant — which has no extension check at all — reports
it `OK` (it is classified geotagged from its GPS fields), not `NON_IMAGE`:
the claim fails on the create.py classification loop its sources cite. -/
theorem createPy_no_extension_filter_cex :
    extOfLower (resolveCandidate c5PyEnv.fs "photos" "notes.txt") ∉
      allowedExts ∧
    (mainPy c5PyEnv "photos" "o.kmz" false).reportRows.map
      (fun r => r.status) = ["OK"] := by
  constructor
  · decide
  · decide

/-- C5 amended.  In the create-win.py variant the claim holds: whenever the
resolved path's lowercased extension is outside
{jpg, jpeg, png, heic, heif}, the classifier emits the non-image bucket
(reported `NON_IMAGE`), regardless of any GPS fields; create.py performs no
extension filtering and classifies by GPS fields alone. -/
theorem classifyWin_nonimage (env : WinEnv) (dir : String) (item : RawItem)
    (src : String) (h1 : rawSrc item = some src) (h2 : src ≠ "")
    (h3 : extOfLower (resolveCandidate env.fs dir src) ∉ allowedExts) :
    classifyWin env dir item =
      .ok (.nonimg (resolveCandidate env.fs dir src)) := by
  simp only [classifyWin, h1, if_neg h2, if_neg h3]

def c5WinEnv : WinEnv := ⟨.ok [c5Item],
  ⟨fun _ => true, fun _ => some epochDT⟩, fun _ => none, fun _ => true,
  fun _ => true⟩

theorem classifyWin_nonimage_witness :
    classifyWin c5WinEnv "photos" c5Item =
      .ok (.nonimg (resolveCandidate c5WinEnv.fs "photos" "notes.txt")) :=
  classifyWin_nonimage c5WinEnv "photos" c5Item "notes.txt" rfl (by decide)
    (by decide)

/-! ## C7: archive finalization failure -/

def c7Item : RawItem :=
  ⟨some "a.jpg", none, some (.num 1), some (.num 2), none, none⟩

def c7Env : PyEnv := ⟨.ok [c7Item], ⟨fun _ => true, fun _ => some epochDT⟩,
  fun _ => false⟩

def c7WinEnv : WinEnv := ⟨.ok [c7Item],
  ⟨fun _ => true, fun _ => some epochDT⟩, fun _ => none, fun _ => true,
  fun _ => false⟩

/-- C7 counterexample.  The claim says a failed archive write leaves no
partial file at the output path (staging-and-rename or delete-on-failure).
Both variants open the zip directly at the output path; when the very
first entry write fails the run aborts with the output file created,
never finalized and never removed — a partial archive remains, in
create.py and create-win.py alike. -/
theorem archive_partial_left_cex :
    (mainPy c7Env "photos" "o.kmz" false).exit =
      .raised "archive write failed" ∧
    (mainPy c7Env "photos" "o.kmz" false).archiveCreated = true ∧
    (mainPy c7Env "photos" "o.kmz" false).archiveFinalized = false ∧
    (mainPy c7Env "photos" "o.kmz" false).archiveRemoved = false ∧
    (mainWin c7WinEnv "photos" "o.kmz").exit =
      .raised "archive write failed" ∧
    (mainWin c7WinEnv "photos" "o.kmz").archiveCreated = true ∧
    (mainWin c7WinEnv "photos" "o.kmz").archiveFinalized = false ∧
    (mainWin c7WinEnv "photos" "o.kmz").archiveRemoved = false := by
  refine ⟨by decide, by decide, by decide, by decide, by decide, by decide,
    by decide, by decide⟩

/-- C7 amended.  In both variants, when the archive write fails partway
the run aborts, no report is written and the scratch directories are
still removed, but the partial archive file is left in place at the
output path: the archive is written directly there (no staging path, no
rename, no delete on failure). -/
theorem archive_failure_leaves_partial (envP : PyEnv) (envW : WinEnv)
    (dir out : String) (tour : Bool)
    (dataP dataW : List RawItem) (items0 : List Geo)
    (skipped : List String) (b : WinBuckets)
    (heP : envP.exiftool = .ok dataP)
    (hcP : classifyAllPy envP.fs dir dataP = .ok (items0, skipped))
    (hne : (items0.isEmpty && skipped.isEmpty) = false)
    (hzP : envP.zipOk "doc.kml" = false)
    (heW : envW.exiftool = .ok dataW)
    (hcW : classifyAllWin envW dir dataW = .ok b)
    (hcopyW : ∀ s, envW.copyOk s = true)
    (hzW : envW.zipOk "doc.kml" = false) :
    (mainPy envP dir out tour).exit = .raised "archive write failed" ∧
    (mainPy envP dir out tour).archiveCreated = true ∧
    (mainPy envP dir out tour).archiveFinalized = false ∧
    (mainPy envP dir out tour).archiveRemoved = false ∧
    (mainPy envP dir out tour).csvWritten = false ∧
    (mainPy envP dir out tour).geojsonWritten = false ∧
    (mainPy envP dir out tour).scratchRemains = false ∧
    (mainWin envW dir out).exit = .raised "archive write failed" ∧
    (mainWin envW dir out).archiveCreated = true ∧
    (mainWin envW dir out).archiveFinalized = false ∧
    (mainWin envW dir out).archiveRemoved = false ∧
    (mainWin envW dir out).csvWritten = false ∧
    (mainWin envW dir out).reportRows = [] ∧
    (mainWin envW dir out).scratchRemains = false := by
  rw [mainPy_zipfail envP dir out tour dataP items0 skipped heP hcP hne hzP,
    mainWin_zipfail envW dir out dataW b heW hcW hcopyW hzW]
  exact ⟨rfl, rfl, rfl, rfl, rfl, rfl, rfl, rfl, rfl, rfl, rfl, rfl, rfl,
    rfl⟩

theorem archive_failure_leaves_partial_witness :
    (mainPy c7Env "photos" "o.kmz" false).archiveCreated = true ∧
    (mainPy c7Env "photos" "o.kmz" false).archiveFinalized = false ∧
    (mainWin c7WinEnv "photos" "o.kmz").archiveCreated = true ∧
    (mainWin c7WinEnv "photos" "o.kmz").archiveFinalized = false := by
  have h := archive_failure_leaves_partial c7Env c7WinEnv "photos" "o.kmz"
    false [c7Item] [c7Item]
    [⟨"a.jpg", "photos/a.jpg", 2, 1, none, some epochDT, "", none⟩] []
    ⟨[⟨"photos/a.jpg", "photos/a.jpg", 2, 1, none, some epochDT, "", none⟩],
      [], []⟩
    rfl (by decide) (by decide) rfl
    rfl (by decide) (fun _ => rfl) rfl
  exact ⟨h.2.1, h.2.2.1, h.2.2.2.2.2.2.2.2.1, h.2.2.2.2.2.2.2.2.2.1⟩

/-! ## Naming-pass invariance helpers -/

lemma assignNames_map_comp {β : Type} (f : Geo → β)
    (hf : ∀ (p : Geo) (n : String), f { p with kname := n } = f p)
    (s : List Geo) : (assignNames s).map f = s.map f := by
  unfold assignNames
  rw [List.map_map]
  have h1 : (f ∘ fun ip : Nat × Geo =>
      { ip.2 with kname := "p" ++ toString (ip.1 + 1) }) =
      (fun ip : Nat × Geo => f ip.2) := by
    funext ip
    exact hf ip.2 _
  rw [h1]
  have h2 : (fun ip : Nat × Geo => f ip.2) = f ∘ Prod.snd := rfl
  rw [h2, ← List.map_map, List.enum_map_snd]

lemma assignNames_length (s : List Geo) :
    (assignNames s).length = s.length := by
  simp [assignNames]

lemma mem_assignNames_pathExists (fs : FsEnv) (s : List Geo)
    (hall : ∀ p ∈ s, fs.pathExists p.candidate = true) :
    ∀ p ∈ assignNames s, fs.pathExists p.candidate = true := by
  intro p hp
  have hmem : p.candidate ∈ (assignNames s).map (fun q => q.candidate) :=
    List.mem_map_of_mem _ hp
  rw [assignNames_map_comp (fun q => q.candidate) (fun _ _ => rfl)] at hmem
  obtain ⟨q, hq, he⟩ := List.mem_map.mp hmem
  rw [← he]
  exact hall q hq

/-! ## C8: archive round trip -/

def c8Item : RawItem :=
  ⟨some "a.jpg", none, some (.num 1), some (.num 2), none, none⟩

def c8Env : PyEnv := ⟨.ok [c8Item], ⟨fun _ => false, fun _ => none⟩,
  fun _ => true⟩

/-- C8 counterexample.  When a geotagged record's resolved file does not
exist at copy time, create.py skips the copy with a warning but the
placemark still references `files/<basename>`: the run succeeds, the KML
references "files/a.jpg", yet the archive contains only `doc.kml` — the
referenced media path is not present in the archive, contradicting the
claim precisely in the case it singles out. -/
theorem kmz_dangling_reference_cex :
    (mainPy c8Env "photos" "o.kmz" false).exit = .ok ∧
    ((mainPy c8Env "photos" "o.kmz" false).kml.getD
        ⟨"", [], none⟩).placemarks.map (fun pm => pm.imgSrc) =
      ["files/a.jpg"] ∧
    (mainPy c8Env "photos" "o.kmz" false).archiveEntries = ["doc.kml"] ∧
    "files/a.jpg" ∉ (mainPy c8Env "photos" "o.kmz" false).archiveEntries := by
  refine ⟨by decide, by decide, by decide, by decide⟩

/-- C8 amended.  For a create.py run that succeeds *and in which every
geotagged record's resolved file exists at copy time*, the archive's root
entry is doc.kml and the set of media paths referenced by placemark
thumbnails equals the set of files staged under `files/`; a record whose
file is missing is skipped from staging but still referenced, leaving a
dangling reference (see the counterexample).  The create-win variant
instead aborts the whole run when a copy fails, so its successful runs
always satisfy the match. -/
theorem kmz_refs_match_staged (env : PyEnv) (dir out : String) (tour : Bool)
    (data : List RawItem) (items0 : List Geo) (skipped : List String)
    (he : env.exiftool = .ok data)
    (hc : classifyAllPy env.fs dir data = .ok (items0, skipped))
    (hne : (items0.isEmpty && skipped.isEmpty) = false)
    (hz : ∀ e, env.zipOk e = true)
    (hex : ∀ p ∈ items0, env.fs.pathExists p.candidate = true) :
    (mainPy env dir out tour).exit = .ok ∧
    (mainPy env dir out tour).archiveEntries.head? = some "doc.kml" ∧
    (((mainPy env dir out tour).kml.getD ⟨"", [], none⟩).placemarks.map
        (fun pm => pm.imgSrc)).toFinset =
      ((mainPy env dir out tour).archiveEntries.tail).toFinset := by
  have hall : ∀ p ∈ assignNames (sortGeo items0),
      env.fs.pathExists p.candidate = true := by
    apply mem_assignNames_pathExists
    intro p hp
    exact hex p ((List.perm_insertionSort geoR items0).mem_iff.mp hp)
  have hitems : itemsCOf env items0 =
      (assignNames (sortGeo items0)).map
        (fun p => { p with kimg := some ("files/" ++ basename p.candidate) }) := by
    unfold itemsCOf
    apply List.map_congr_left
    intro p hp
    unfold copyUpdatePy
    rw [if_pos (hall p hp)]
  have hstaged : stagedOf env items0 =
      (assignNames (sortGeo items0)).map
        (fun p => "files/" ++ basename p.candidate) := by
    have hf : ∀ x ∈ (assignNames (sortGeo items0)).map
        (fun p =>
          ({ p with kimg := some ("files/" ++ basename p.candidate) } : Geo)),
        env.fs.pathExists x.candidate = true := by
      intro x hx
      obtain ⟨p, hp, hpe⟩ := List.mem_map.mp hx
      rw [← hpe]
      exact hall p hp
    unfold stagedOf
    rw [hitems, List.filter_eq_self.mpr hf, List.map_map]
    rfl
  rw [mainPy_success env dir out tour data items0 skipped he hc hne hz]
  refine ⟨rfl, rfl, ?_⟩
  simp only [Option.getD_some, make_kml, List.map_map, List.tail_cons]
  rw [hitems, List.map_reverse, List.map_map]
  show ((assignNames (sortGeo items0)).map
      (fun p => "files/" ++ basename p.candidate)).reverse.toFinset =
    ((stagedOf env items0).dedup).toFinset
  rw [List.toFinset_reverse, hstaged]
  apply Finset.ext
  intro a
  simp [List.mem_toFinset, List.mem_dedup]

def c8wIt : Geo := ⟨"a.jpg", "photos/a.jpg", 2, 1, none, some epochDT, "", none⟩

def c8wEnv : PyEnv := ⟨.ok [c8Item], ⟨fun _ => true, fun _ => some epochDT⟩,
  fun _ => true⟩

theorem kmz_refs_match_staged_witness :
    (mainPy c8wEnv "photos" "o.kmz" false).exit = .ok ∧
    (mainPy c8wEnv "photos" "o.kmz" false).archiveEntries.head? =
      some "doc.kml" ∧
    (((mainPy c8wEnv "photos" "o.kmz" false).kml.getD
        ⟨"", [], none⟩).placemarks.map (fun pm => pm.imgSrc)).toFinset =
      ((mainPy c8wEnv "photos" "o.kmz" false).archiveEntries.tail).toFinset :=
  kmz_refs_match_staged c8wEnv "photos" "o.kmz" false [c8Item] [c8wIt] []
    rfl (by decide) (by decide) (fun _ => rfl) (by decide)

/-! ## C3: classification totality and report completeness -/

lemma classifyPy_not_drop (env : FsEnv) (dir : String) (it : RawItem)
    (hu : usable it = true) : classifyPy env dir it ≠ .ok .drop := by
  unfold usable at hu
  unfold classifyPy
  match hs : rawSrc it with
  | none => rw [hs] at hu; simp [truthy] at hu
  | some src =>
    rw [hs] at hu
    have hne : src ≠ "" := by simpa [truthy] using hu
    simp only [if_neg hne]
    repeat' split
    all_goals simp

lemma classifyWin_not_drop (env : WinEnv) (dir : String) (it : RawItem)
    (hu : usable it = true) : classifyWin env dir it ≠ .ok .drop := by
  unfold usable at hu
  unfold classifyWin
  match hs : rawSrc it with
  | none => rw [hs] at hu; simp [truthy] at hu
  | some src =>
    rw [hs] at hu
    have hne : src ≠ "" := by simpa [truthy] using hu
    simp only [if_neg hne]
    repeat' split
    all_goals simp

lemma classifyAllPy_length (env : FsEnv) (dir : String) :
    ∀ (data : List RawItem) (res : List Geo × List String),
      (∀ it ∈ data, usable it = true) →
      classifyAllPy env dir data = .ok res →
      res.1.length + res.2.length = data.length := by
  intro data
  induction data with
  | nil =>
    intro res _ h
    simp only [classifyAllPy] at h
    cases h
    rfl
  | cons it its ih =>
    intro res hu h
    unfold classifyAllPy at h
    match hstep : classifyPy env dir it with
    | .error e => rw [hstep] at h; exact absurd h (by simp)
    | .ok st =>
      rw [hstep] at h
      match hrec : classifyAllPy env dir its with
      | .error e => rw [hrec] at h; exact absurd h (by simp)
      | .ok r =>
        rw [hrec] at h
        have hlen := ih r (fun x hx => hu x (List.mem_cons_of_mem _ hx)) hrec
        match st with
        | .geo g =>
          simp only [Except.ok.injEq] at h
          rw [← h]
          simp only [List.length_cons]
          omega
        | .skip s =>
          simp only [Except.ok.injEq] at h
          rw [← h]
          simp only [List.length_cons]
          omega
        | .drop =>
          exact absurd hstep
            (classifyPy_not_drop env dir it (hu it (List.mem_cons_self it its)))

lemma classifyAllWin_length (env : WinEnv) (dir : String) :
    ∀ (data : List RawItem) (b : WinBuckets),
      (∀ it ∈ data, usable it = true) →
      classifyAllWin env dir data = .ok b →
      b.items.length + b.nongeo.length + b.nonimg.length = data.length := by
  intro data
  induction data with
  | nil =>
    intro b _ h
    simp only [classifyAllWin] at h
    cases h
    rfl
  | cons it its ih =>
    intro b hu h
    unfold classifyAllWin at h
    match hstep : classifyWin env dir it with
    | .error e => rw [hstep] at h; exact absurd h (by simp)
    | .ok st =>
      rw [hstep] at h
      match hrec : classifyAllWin env dir its with
      | .error e => rw [hrec] at h; exact absurd h (by simp)
      | .ok r =>
        rw [hrec] at h
        have hlen := ih r (fun x hx => hu x (List.mem_cons_of_mem _ hx)) hrec
        match st with
        | .geo g =>
          simp only [Except.ok.injEq] at h
          rw [← h]
          simp only [List.length_cons]
          omega
        | .nongeo s d =>
          simp only [Except.ok.injEq] at h
          rw [← h]
          simp only [List.length_cons]
          omega
        | .nonimg p =>
          simp only [Except.ok.injEq] at h
          rw [← h]
          simp only [List.length_cons]
          omega
        | .drop =>
          exact absurd hstep
            (classifyWin_not_drop env dir it (hu it (List.mem_cons_self it its)))

lemma mainWin_success (env : WinEnv) (dir out : String)
    (data : List RawItem) (b : WinBuckets)
    (he : env.exiftool = .ok data)
    (hc : classifyAllWin env dir data = .ok b)
    (hcopy : ∀ s, env.copyOk s = true)
    (hz : ∀ e, env.zipOk e = true) :
    mainWin env dir out =
      { exit := .ok,
        buckets := b,
        items := winItemsCOf b.items,
        kml := some (make_kml_win (winItemsCOf b.items).reverse
          (splitextRoot out)),
        archiveCreated := true,
        archiveEntries := "doc.kml" ::
          (((assignNames (sortGeo b.items)).map
            (fun p => basename p.srcpath)).map
              (fun bn => "files/" ++ bn)).dedup,
        archiveFinalized := true,
        archiveRemoved := false,
        csvWritten := true,
        reportRows := winRows (winItemsCOf b.items) b.nongeo b.nonimg,
        sideDirsCreated := true,
        sideGeo := (assignNames (sortGeo b.items)).map
          (fun p => basename p.srcpath),
        sideNonGeo := (b.nongeo.filter (fun ng => env.copyOk ng.1)).map
          (fun ng => basename ng.1),
        sideNonImg := (b.nonimg.filter
          (fun nf => env.fs.pathExists nf && env.copyOk nf)).map basename,
        scratchRemains := false } := by
  simp only [mainWin, he, hc, copyGeoWin_all env.copyOk hcopy,
    writeZip_all env.zipOk hz, winItemsCOf, if_true, Bool.false_eq_true,
    if_false]

lemma winRows_length (items : List Geo)
    (ng : List (String × Option DateTime)) (ni : List String) :
    (winRows items ng ni).length = items.length + ng.length + ni.length := by
  simp [winRows]
  omega

lemma winRows_map_status (items : List Geo)
    (ng : List (String × Option DateTime)) (ni : List String) :
    (winRows items ng ni).map (fun r => r.status) =
      items.map (fun _ => "OK") ++ ng.map (fun _ => "NO_GPS") ++
        ni.map (fun _ => "NON_IMAGE") := by
  unfold winRows
  rw [List.map_map]
  have h1 : ((fun r : WinRow => r.status) ∘
      fun ir : Nat × WinRow => { ir.2 with sl := ir.1 + 1 }) =
      ((fun r : WinRow => r.status) ∘ Prod.snd) := rfl
  rw [h1, ← List.map_map, List.enum_map_snd, List.map_append,
    List.map_append, List.map_map, List.map_map, List.map_map]
  rfl

lemma itemsCOf_length (env : PyEnv) (items0 : List Geo) :
    (itemsCOf env items0).length = items0.length := by
  unfold itemsCOf
  rw [List.length_map, assignNames_length]
  exact (List.perm_insertionSort geoR items0).length_eq

lemma winItemsCOf_length (items0 : List Geo) :
    (winItemsCOf items0).length = items0.length := by
  unfold winItemsCOf
  rw [List.length_map, assignNames_length]
  exact (List.perm_insertionSort geoR items0).length_eq

/-- C3.  For every extractor record sequence (each record carrying a
source path, as the extractor contract guarantees, and well-formed enough
to classify), classification is a partition: the bucket sizes sum to the
number of records, the report has exactly one row per record, and every
row's status is one of OK / NO_GPS (create.py, which has no non-image
bucket) resp. OK / NO_GPS / NON_IMAGE (create-win.py).  No record is
silently dropped from the report. -/
theorem report_rows_complete (envP : PyEnv) (envW : WinEnv)
    (dir out : String) (tour : Bool) (dataP dataW : List RawItem)
    (itemsP : List Geo) (skippedP : List String) (b : WinBuckets)
    (heP : envP.exiftool = .ok dataP)
    (hcP : classifyAllPy envP.fs dir dataP = .ok (itemsP, skippedP))
    (huP : ∀ it ∈ dataP, usable it = true)
    (hzP : ∀ e, envP.zipOk e = true)
    (heW : envW.exiftool = .ok dataW)
    (hcW : classifyAllWin envW dir dataW = .ok b)
    (huW : ∀ it ∈ dataW, usable it = true)
    (hcopyW : ∀ s, envW.copyOk s = true)
    (hzW : ∀ e, envW.zipOk e = true) :
    itemsP.length + skippedP.length = dataP.length ∧
    (mainPy envP dir out tour).reportRows.length = dataP.length ∧
    (∀ r ∈ (mainPy envP dir out tour).reportRows,
      r.status = "OK" ∨ r.status = "NO_GPS") ∧
    b.items.length + b.nongeo.length + b.nonimg.length = dataW.length ∧
    (mainWin envW dir out).reportRows.length = dataW.length ∧
    (∀ r ∈ (mainWin envW dir out).reportRows,
      r.status = "OK" ∨ r.status = "NO_GPS" ∨ r.status = "NON_IMAGE") := by
  have hlenP := classifyAllPy_length envP.fs dir dataP (itemsP, skippedP)
    huP hcP
  have hlenW := classifyAllWin_length envW dir dataW b huW hcW
  have hwin := mainWin_success envW dir out dataW b heW hcW hcopyW hzW
  have hpy : (mainPy envP dir out tour).reportRows.length = dataP.length ∧
      ∀ r ∈ (mainPy envP dir out tour).reportRows,
        r.status = "OK" ∨ r.status = "NO_GPS" := by
    by_cases hd : (itemsP.isEmpty && skippedP.isEmpty) = true
    · obtain ⟨h1, h2⟩ := Bool.and_eq_true_iff.mp hd
      have h1 : itemsP = [] := by simpa using h1
      have h2 : skippedP = [] := by simpa using h2
      have hmain : mainPy envP dir out tour = noRunPy (.exited 1) := by
        rw [h1, h2] at hcP
        simp [mainPy, heP, hcP]
      rw [hmain]
      constructor
      · show ([] : List PyRow).length = dataP.length
        rw [h1, h2] at hlenP
        simpa using hlenP
      · intro r hr
        simp [noRunPy] at hr
    · have hne : (itemsP.isEmpty && skippedP.isEmpty) = false := by
        simpa using hd
      rw [mainPy_success envP dir out tour dataP itemsP skippedP heP hcP
        hne hzP]
      constructor
      · show ((itemsCOf envP itemsP).map okRowPy ++
            skippedP.map noGpsRowPy).length = dataP.length
        rw [List.length_append, List.length_map, List.length_map,
          itemsCOf_length]
        exact hlenP
      · intro r hr
        rcases List.mem_append.mp hr with h | h
        · obtain ⟨p, _, hpe⟩ := List.mem_map.mp h
          left
          rw [← hpe]
          rfl
        · obtain ⟨s, _, hpe⟩ := List.mem_map.mp h
          right
          rw [← hpe]
          rfl
  have hwinlen : (mainWin envW dir out).reportRows.length = dataW.length := by
    rw [hwin]
    show (winRows (winItemsCOf b.items) b.nongeo b.nonimg).length = _
    rw [winRows_length, winItemsCOf_length]
    exact hlenW
  have hwinstat : ∀ r ∈ (mainWin envW dir out).reportRows,
      r.status = "OK" ∨ r.status = "NO_GPS" ∨ r.status = "NON_IMAGE" := by
    rw [hwin]
    intro r hr
    have hm : r.status ∈ (winRows (winItemsCOf b.items) b.nongeo
        b.nonimg).map (fun q => q.status) := List.mem_map_of_mem _ hr
    rw [winRows_map_status] at hm
    rcases List.mem_append.mp hm with h | h
    · rcases List.mem_append.mp h with h2 | h2
      · obtain ⟨_, _, he2⟩ := List.mem_map.mp h2
        exact Or.inl he2.symm
      · obtain ⟨_, _, he2⟩ := List.mem_map.mp h2
        exact Or.inr (Or.inl he2.symm)
    · obtain ⟨_, _, he2⟩ := List.mem_map.mp h
      exact Or.inr (Or.inr he2.symm)
  exact ⟨hlenP, hpy.1, hpy.2, hlenW, hwinlen, hwinstat⟩

def c3WinEnv : WinEnv := ⟨.ok [c8Item, c5Item],
  ⟨fun _ => true, fun _ => some epochDT⟩, fun _ => none, fun _ => true,
  fun _ => true⟩

def c3wg : Geo :=
  ⟨"photos/a.jpg", "photos/a.jpg", 2, 1, none, some epochDT, "", none⟩

theorem report_rows_complete_witness :
    (mainPy c8wEnv "photos" "o.kmz" false).reportRows.length = 1 ∧
    (mainWin c3WinEnv "photos" "o.kmz").reportRows.length = 2 := by
  have h := report_rows_complete c8wEnv c3WinEnv "photos" "o.kmz" false
    [c8Item] [c8Item, c5Item] [c8wIt] [] ⟨[c3wg], [], ["photos/notes.txt"]⟩
    rfl (by decide) (by decide) (fun _ => rfl)
    rfl (by decide) (by decide) (fun _ => rfl) (fun _ => rfl)
  exact ⟨h.2.1, h.2.2.2.2.1⟩

end IMG
